import Mathlib

/-!
Verification of the pyAvanza-TA day-trading calibration code.

This file shallowly embeds the parts of the repository needed to settle the
frozen claims:

* `module/day_trading_TA/main_calibration.py` — the backtest simulator
  (`CalibrationOrder`, `Helper`, `Calibration._walk_through_strategies`);
* `module/day_trading_TA/strategy.py` — the condition library and strategy
  synthesis (`prepare_conditions`, `generate_strategies_names`,
  `parse_strategies_names`, `generate_strategies`);
* `module/dt/calibration/main.py` — the newer calibration's summary and
  filter-mode logic (`Helper.get_orders_history_summary`,
  `Calibration._walk_through_strategies`);
* `module/day_trading.py` — the live state machine's sell-order pricing
  (`Helper.place_order`, `Day_Trading.check_instrument_for_sell_action`).

Python floats are modelled as exact rationals (`ℚ`); Python `round` (banker's
rounding half to even) is modelled by `pyRound`; Python strings are Lean
`String`s and the string methods used by the code (`split`, `strip`, slicing)
are modelled explicitly below.
-/

set_option maxRecDepth 40000

/-- Python's `round` on a real value: round half to even (banker's rounding). -/
def pyRound (q : ℚ) : ℤ :=
  let f := ⌊q⌋
  let r := q - f
  if r < 1/2 then f
  else if 1/2 < r then f + 1
  else if Even f then f else f + 1

/-- Split a character list at every occurrence of the separator `c`, keeping
empty pieces — the semantics of Python's `str.split(sep)` for a one-character
separator. -/
def splitOnChar (c : Char) : List Char → List (List Char)
  | [] => [[]]
  | x :: xs =>
    match splitOnChar c xs with
    | [] => [[x]]
    | y :: ys => if x = c then [] :: y :: ys else (x :: y) :: ys

/-- Python `s.split(sep)` for a one-character separator `sep`. -/
def pySplit (sep : Char) (s : String) : List String :=
  (splitOnChar sep s.data).map String.mk

/-- Python `s.strip()`: remove leading and trailing whitespace. -/
def pyStrip (s : String) : String :=
  String.mk (((s.data.dropWhile Char.isWhitespace).reverse.dropWhile
    Char.isWhitespace).reverse)

/-- Python `s[1:-1]`: drop the first and the last character. -/
def pySliceInner (s : String) : String :=
  String.mk ((s.data.drop 1).dropLast)

/-- The two tradable instrument directions (`Instrument` enum; dict iteration
order is `BULL` then `BEAR`). -/
inductive Instrument where
  | bull
  | bear
deriving DecidableEq, Repr

/-- The `avanza.OrderType` values used by the strategies (`BUY`, `SELL`). -/
inductive OrderType where
  | buy
  | sell
deriving DecidableEq, Repr

/-- Trade verdict recorded by `CalibrationOrder.sell`. -/
inductive Verdict where
  | bad
  | good
deriving DecidableEq, Repr

/-- A candle timestamp, as far as the simulator inspects it: the walk reads
only `index.hour` and `index.minute`; `day` keeps candles of different
trading days distinct. -/
structure Tm where
  day : ℕ
  hour : ℕ
  minute : ℕ
deriving DecidableEq, Repr

/-- One row of the indicator-enriched candle dataframe: the OHLC data plus
every indicator column referenced by `Strategy.prepare_conditions`.  The two
PSAR columns are `Option ℚ` because pandas-ta leaves exactly one of them NaN
on each row and a NaN comparison is `False` in pandas. -/
structure Row where
  openPrice : ℚ := 0
  high : ℚ := 0
  low : ℚ := 0
  closePrice : ℚ := 0
  volume : ℚ := 0
  ebsw : ℚ := 0
  sma9 : ℚ := 0
  pvt : ℚ := 0
  cmf20 : ℚ := 0
  adoscDirection : ℚ := 0
  massi : ℚ := 0
  hwm : ℚ := 0
  bbl : ℚ := 0
  bbu : ℚ := 0
  rvi : ℚ := 0
  twoDema : ℚ := 0
  psarLong : Option ℚ := none
  psarShort : Option ℚ := none
  alma : ℚ := 0
  hilo : ℚ := 0
  supert : ℚ := 0
  lrrDirection : ℚ := 0
  rsi : ℚ := 0
  stc : ℚ := 0
  uo : ℚ := 0
  rvgi : ℚ := 0
  rvgis : ℚ := 0
  macdMaDiff : ℚ := 0
  bop : ℚ := 0

/-- A candle of the walked history: its timestamp and its dataframe row. -/
structure Candle where
  tm : Tm
  row : Row

/-- The simulator's `CalibrationOrder` dataclass
(`module/day_trading_TA/main_calibration.py`). -/
structure CalibrationOrder where
  instrument : Instrument
  onBalance : Bool := false
  priceBuy : Option ℚ := none
  priceSell : Option ℚ := none
  timeBuy : Option Tm := none
  timeSell : Option Tm := none
  verdict : Option Verdict := none

/-- `CalibrationOrder.buy`: record the buy time, go on balance, and set the
buy price to the midpoint of the row's open and close, adjusted by the fixed
slippage factor of the instrument. -/
def CalibrationOrder.buy (o : CalibrationOrder) (row : Row) (index : Tm) :
    CalibrationOrder :=
  { o with
    timeBuy := some index
    onBalance := true
    priceBuy := some (((row.openPrice + row.closePrice) / 2) *
      (if o.instrument = Instrument.bull then 1.00015 else 0.99985)) }

/-- `CalibrationOrder.sell`: record the sell time and price (midpoint of close
and open) and the verdict.  The buy price is always set when this runs in the
walk (the call is guarded by `on_balance`); `getD 0` stands for the value
Python would read from the non-`None` field. -/
def CalibrationOrder.sell (o : CalibrationOrder) (row : Row) (index : Tm) :
    CalibrationOrder :=
  let priceSell := (row.closePrice + row.openPrice) / 2
  let pb := o.priceBuy.getD 0
  { o with
    timeSell := some index
    priceSell := some priceSell
    verdict := some
      (if (priceSell ≤ pb ∧ o.instrument = Instrument.bull) ∨
          (priceSell ≥ pb ∧ o.instrument = Instrument.bear) then
        Verdict.bad
      else Verdict.good) }

/-- The dict returned by `CalibrationOrder.pop_result`. -/
structure TradeResult where
  instrument : Instrument
  priceBuy : Option ℚ
  priceSell : Option ℚ
  timeBuy : Option Tm
  timeSell : Option Tm
  verdict : Option Verdict
  profit : Option ℤ
  points : ℤ

/-- `CalibrationOrder.pop_result`: compute profit and points of the trade,
return the result record, and reset every field of the order.  The source
assigns `points_bin` twice in a row; the second assignment (threshold 200,
weight 3) overwrites the first (threshold 100, weight 2), which the shadowing
`let` reproduces. -/
def CalibrationOrder.popResult (o : CalibrationOrder) :
    TradeResult × CalibrationOrder :=
  let profit : Option ℤ :=
    match o.priceSell, o.priceBuy with
    | some ps, some pb =>
      some (pyRound (20 * (ps - pb) *
        (if o.instrument = Instrument.bull then 1 else -1) + 1000))
    | _, _ => none
  let points : ℤ :=
    match profit with
    | none => 0
    | some p => if p - 1000 > 0 then 1 else -1
  let pointsBin : ℤ :=
    match profit with
    | none => 0
    | some p => points * (if |p - 1000| > 100 then 2 else 1)
  let pointsBin : ℤ :=
    match profit with
    | none => 0
    | some p => points * (if |p - 1000| > 200 then 3 else 1)
  (⟨o.instrument, o.priceBuy, o.priceSell, o.timeBuy, o.timeSell, o.verdict,
    profit, pointsBin⟩,
   { instrument := o.instrument })

/-- The buy-side and sell-side condition lists of one synthesized strategy
(`strategy_logic[OrderType.BUY]` / `strategy_logic[OrderType.SELL]`). -/
structure StrategyLogic where
  buyConditions : List (Row → Bool)
  sellConditions : List (Row → Bool)

/-- `Helper.get_signal`: return the first of `BUY`, `SELL` whose condition
list holds on the row (`all` of an empty list is `True`), else `None`. -/
def getSignal (lgc : StrategyLogic) (row : Row) : Option OrderType :=
  if lgc.buyConditions.all (fun p => p row) then some OrderType.buy
  else if lgc.sellConditions.all (fun p => p row) then some OrderType.sell
  else none

/-- `Helper.signal_to_instrument`: map a signal to the instrument bought and
the instrument sold. -/
def signalToInstrument (signal : OrderType) : OrderType → Instrument
  | OrderType.buy =>
    if signal = OrderType.buy then Instrument.bull else Instrument.bear
  | OrderType.sell =>
    if signal = OrderType.buy then Instrument.bear else Instrument.bull

/-- The mutable state of one strategy's walk: the `Helper`'s per-instrument
orders and order history, plus the walk-local `signal` variable of
`Calibration._walk_through_strategies`. -/
structure WalkState where
  orders : Instrument → CalibrationOrder
  ordersHistory : List TradeResult
  signal : Option OrderType

/-- The state at `Helper.__init__`: a fresh off-balance order per instrument,
an empty history, and no pending signal. -/
def initWalkState : WalkState where
  orders := fun i => { instrument := i }
  ordersHistory := []
  signal := none

/-- `Helper.sell_order`: if the instrument's order is on balance, sell it
against the row, append the popped result to the history, and keep the reset
order. -/
def sellOrder (st : WalkState) (index : Tm) (row : Row) (inst : Instrument) :
    WalkState :=
  if (st.orders inst).onBalance then
    let sold := (st.orders inst).sell row index
    let res := sold.popResult
    { st with
      orders := fun j => if j = inst then res.2 else st.orders j
      ordersHistory := st.ordersHistory ++ [res.1] }
  else st

/-- `Helper.buy_order`: do nothing when the signal is `None` or the order is
already on balance, otherwise buy against the row. -/
def buyOrder (st : WalkState) (signal : Option OrderType) (index : Tm)
    (row : Row) (inst : Instrument) : WalkState :=
  if signal = none ∨ (st.orders inst).onBalance then st
  else
    { st with
      orders := fun j =>
        if j = inst then (st.orders inst).buy row index else st.orders j }

/-- A candle at or after the 17:15 session close
(`time_index.hour == 17 and time_index.minute >= 15`). -/
def isSessionClose (tm : Tm) : Bool :=
  decide (tm.hour = 17) && decide (15 ≤ tm.minute)

/-- A candle the walk does not trade on: before 10:00 it is skipped, at the
17:15 close every open order is liquidated. -/
def isOutOfSession (tm : Tm) : Bool :=
  decide (tm.hour < 10) || isSessionClose tm

/-- One iteration of the candle loop of
`Calibration._walk_through_strategies`: skip candles before 10:00; at/after
17:15 liquidate every order (in dict order `BULL`, `BEAR`) without touching
the pending signal; otherwise execute the pending signal (sell the opposite
instrument, buy the signalled one) and then re-evaluate the signal on the
current row. -/
def stepCandle (lgc : StrategyLogic) (st : WalkState) (c : Candle) :
    WalkState :=
  if c.tm.hour < 10 then st
  else if isSessionClose c.tm then
    sellOrder (sellOrder st c.tm c.row Instrument.bull) c.tm c.row
      Instrument.bear
  else
    let afterOrders :=
      match st.signal with
      | none => st
      | some s =>
        buyOrder (sellOrder st c.tm c.row (signalToInstrument s OrderType.sell))
          st.signal c.tm c.row (signalToInstrument s OrderType.buy)
    { afterOrders with signal := getSignal lgc c.row }

/-- The candle loop of `Calibration._walk_through_strategies` for one
strategy, started from a fresh `Helper`. -/
def walkCandles (lgc : StrategyLogic) (candles : List Candle) : WalkState :=
  candles.foldl (stepCandle lgc) initWalkState

/-- The trade counters of the `numbers` line of the summary. -/
structure SummaryNumbers where
  trades : ℕ
  good : ℕ
  bad : ℕ
  bullTrades : ℕ
  bearTrades : ℕ
deriving DecidableEq, Repr

/-- The strategy summary dict of
`module/day_trading_TA/main_calibration.py::Helper.get_orders_history_summary`.
With an empty history only `strategy`, `points` and `profit` are present,
which the `Option` fields reflect. -/
structure StrategySummary where
  strategy : String
  points : ℤ
  profit : ℤ
  efficiency : Option ℤ := none
  numbers : Option SummaryNumbers := none
deriving DecidableEq, Repr

/-- `Helper.get_orders_history_summary` of the TA calibration: points are the
sum of per-trade points, profit is the summed profit minus 1000 per trade,
efficiency is the rounded percentage of good trades.  The efficiency integer
stands for the source's `f"{...}%"` string. -/
def getOrdersHistorySummary (strategyName : String)
    (hist : List TradeResult) : StrategySummary :=
  if hist.length = 0 then { strategy := strategyName, points := 0, profit := 0 }
  else
    let good := (hist.filter (fun r => r.verdict = some Verdict.good)).length
    { strategy := strategyName
      points := (hist.map (fun r => r.points)).sum
      profit := (hist.map (fun r => r.profit.getD 0)).sum - hist.length * 1000
      efficiency := some (pyRound (100 * good / (hist.length : ℚ)))
      numbers := some
        { trades := hist.length
          good := good
          bad := (hist.filter (fun r => r.verdict = some Verdict.bad)).length
          bullTrades :=
            (hist.filter (fun r => r.instrument = Instrument.bull)).length
          bearTrades :=
            (hist.filter (fun r => r.instrument = Instrument.bear)).length } }

/-- The strategy loop of `Calibration._walk_through_strategies`: walk each
strategy with a fresh `Helper` and append its summary to the accumulated
list (every summary is appended; the `profit <= 0` check only skips
logging). -/
def walkStrategiesLoop (candles : List Candle) (acc : List StrategySummary) :
    List (String × StrategyLogic) → List StrategySummary
  | [] => acc
  | (strategyName, lgc) :: rest =>
    walkStrategiesLoop candles
      (acc ++ [getOrdersHistorySummary strategyName
        (walkCandles lgc candles).ordersHistory]) rest

/-- `Calibration._walk_through_strategies` of the TA calibration: the method
first resets `self.strategies = []`, so the list accumulated by any earlier
run (`prevStrategies`) is discarded before the strategy loop runs. -/
def walkThroughStrategies (prevStrategies : List StrategySummary)
    (candles : List Candle) (strats : List (String × StrategyLogic)) :
    List StrategySummary :=
  walkStrategiesLoop candles [] strats

/-- The strategy summary dict of
`module/dt/calibration/main.py::Helper.get_orders_history_summary`.  An empty
history yields points 0, profit 0 and efficiency "0%".  The efficiency
integer stands for the source's `f"{...}%"` string, from which filter mode
reads the number back with `int(s[:-1])`; the per-instrument `numbers_bull`
and `numbers_bear` log strings are not modelled. -/
structure SummaryDT where
  strategy : String
  points : ℤ
  profit : ℤ
  efficiency : ℤ
deriving DecidableEq, Repr

/-- `Helper.get_orders_history_summary` of the dt calibration. -/
def getOrdersHistorySummaryDT (strategyName : String)
    (hist : List TradeResult) : SummaryDT :=
  if hist.length = 0 then
    { strategy := strategyName, points := 0, profit := 0, efficiency := 0 }
  else
    { strategy := strategyName
      points := (hist.map (fun r => r.points)).sum
      profit := (hist.map (fun r => r.profit.getD 0)).sum - hist.length * 1000
      efficiency := pyRound (100 *
        ((hist.filter (fun r => r.verdict = some Verdict.good)).length : ℚ) /
        (hist.length : ℚ)) }

/-- The discard test of filter mode in
`module/dt/calibration/main.py::Calibration._walk_through_strategies`:
a summary is dropped when points < -10, or profit <= 100, or the efficiency
percentage is below 50. -/
def filterDiscards (s : SummaryDT) : Bool :=
  decide (s.points < -10) || decide (s.profit ≤ 100) ||
    decide (s.efficiency < 50)

/-- The summary-collecting loop of the dt calibration's
`_walk_through_strategies`: in filter mode a discarded summary is skipped
(`continue`), every other summary is appended. -/
def collectStrategiesDT (filterStrategies : Bool) :
    List SummaryDT → List SummaryDT
  | [] => []
  | s :: rest =>
    if filterStrategies && filterDiscards s then collectStrategiesDT filterStrategies rest
    else s :: collectStrategiesDT filterStrategies rest

/-- The sell-order price of `module/day_trading.py::Helper.place_order`: the
current sell (bid) price when it is strictly below the stop-loss price,
otherwise the take-profit price. -/
def placeSellOrderPrice (currentSell stopLoss takeProfit : ℚ) : ℚ :=
  if currentSell < stopLoss then currentSell else takeProfit

/-- The re-pricing decision of
`module/day_trading.py::Day_Trading.check_instrument_for_sell_action` for a
held position with an active order: below stop-loss (or when a sell is
enforced) the order is moved to the current sell price; otherwise it is moved
to the take-profit price unless it already sits there (`None` = no update). -/
def updateSellOrderPrice (currentSell stopLoss takeProfit activeOrderPrice : ℚ)
    (enforceSell : Bool) : Option ℚ :=
  if currentSell < stopLoss ∨ enforceSell then some currentSell
  else if activeOrderPrice ≠ takeProfit then some takeProfit
  else none

/-- One entry of the condition library built by
`Strategy.prepare_conditions`: its category, its indicator name, and its
buy-side and sell-side predicates over a dataframe row. -/
structure Cond where
  category : String
  name : String
  buySide : Row → Bool
  sellSide : Row → Bool

/-- Pandas comparison of a possibly-NaN column with a bound: a NaN compares
as `False`. -/
def optLt (a : Option ℚ) (b : ℚ) : Bool :=
  match a with
  | none => false
  | some x => decide (x < b)

/-- Pandas comparison of a possibly-NaN column with a bound: a NaN compares
as `False`. -/
def optGt (a : Option ℚ) (b : ℚ) : Bool :=
  match a with
  | none => false
  | some x => decide (b < x)

/-- The full condition library of `Strategy.prepare_conditions`, in the
iteration order of the `conditions` dict (categories in the order of
`condition_types_list` — Volatility, Trend, Candle, Overlap, Momentum,
Volume, Cycles — then insertion order inside a category).  The CMF bounds
`cmfMax`/`cmfMin` are the extrema of the `CMF_20` column, computed from the
data before the predicates close over them. -/
def fullConditions (cmfMax cmfMin : ℚ) : List Cond :=
  [{ category := "Volatility", name := "MASSI"
     buySide := fun x => decide (26 < x.massi ∧ x.massi < 27)
     sellSide := fun x => decide (26 < x.massi ∧ x.massi < 27) },
   { category := "Volatility", name := "HWC"
     buySide := fun x => decide (x.closePrice > x.hwm)
     sellSide := fun x => decide (x.closePrice < x.hwm) },
   { category := "Volatility", name := "BBANDS"
     buySide := fun x => decide (x.closePrice > x.bbl)
     sellSide := fun x => decide (x.closePrice < x.bbu) },
   { category := "Volatility", name := "RVI"
     buySide := fun x => decide (x.rvi > 50)
     sellSide := fun x => decide (x.rvi < 50) },
   { category := "Trend", name := "2DEMA"
     buySide := fun x => decide (x.twoDema = 1)
     sellSide := fun x => decide (x.twoDema = -1) },
   { category := "Trend", name := "PSAR"
     buySide := fun x => optLt x.psarLong x.closePrice
     sellSide := fun x => optGt x.psarShort x.closePrice },
   { category := "Overlap", name := "ALMA"
     buySide := fun x => decide (x.closePrice > x.alma)
     sellSide := fun x => decide (x.closePrice < x.alma) },
   { category := "Overlap", name := "GHLA"
     buySide := fun x => decide (x.closePrice > x.hilo)
     sellSide := fun x => decide (x.closePrice < x.hilo) },
   { category := "Overlap", name := "SUPERT"
     buySide := fun x => decide (x.closePrice > x.supert)
     sellSide := fun x => decide (x.closePrice < x.supert) },
   { category := "Overlap", name := "LINREG"
     buySide := fun x => decide (x.lrrDirection = 1)
     sellSide := fun x => decide (x.lrrDirection = 0) },
   { category := "Momentum", name := "RSI"
     buySide := fun x => decide (x.rsi > 50)
     sellSide := fun x => decide (x.rsi < 50) },
   { category := "Momentum", name := "STC"
     buySide := fun x => decide (x.stc < 75)
     sellSide := fun x => decide (x.stc > 25) },
   { category := "Momentum", name := "UO"
     buySide := fun x => decide (x.uo < 30)
     sellSide := fun x => decide (x.uo > 70) },
   { category := "Momentum", name := "RVGI"
     buySide := fun x => decide (x.rvgi > x.rvgis)
     sellSide := fun x => decide (x.rvgi < x.rvgis) },
   { category := "Momentum", name := "MACD"
     buySide := fun x => decide (x.macdMaDiff = 1)
     sellSide := fun x => decide (x.macdMaDiff = 0) },
   { category := "Momentum", name := "BOP"
     buySide := fun x => decide (x.bop < -0.25)
     sellSide := fun x => decide (x.bop > 0.25) },
   { category := "Volume", name := "PVT"
     buySide := fun x => decide (x.sma9 < x.pvt)
     sellSide := fun x => decide (x.sma9 > x.pvt) },
   { category := "Volume", name := "CMF"
     buySide := fun x => decide (x.cmf20 > cmfMax * 0.2)
     sellSide := fun x => decide (x.cmf20 < cmfMin * 0.2) },
   { category := "Volume", name := "ADOSC"
     buySide := fun x => decide (x.adoscDirection = 1)
     sellSide := fun x => decide (x.adoscDirection = 0) },
   { category := "Cycles", name := "EBSW"
     buySide := fun x => decide (x.ebsw > 0.5)
     sellSide := fun x => decide (x.ebsw < -0.5) }]

/-- The `(indicator_type, indicator)` list that
`Strategy.generate_strategies_names` builds by iterating the conditions dict;
an indicator whose name is a substring of `"HOLD"` (Python's `in` on strings)
would be excluded. -/
def indicatorsNames (cmfMax cmfMin : ℚ) : List (String × String) :=
  ((fullConditions cmfMax cmfMin).map (fun c => (c.category, c.name))).filter
    (fun p => !(decide (p.2.data <:+: "HOLD".data)))

/-- The innermost loop of `Strategy.generate_strategies_names`: iterate
`temp_indicators_names[i_2:]` (which starts at `indicator_2` itself), skip
indicators sharing `indicator_2`'s category, and emit one triple per
remaining `indicator_3`. -/
def tripleFrom (x1 x2 : String × String) (t : List (String × String)) :
    List (List (String × String)) :=
  (t.filter (fun x3 => x2.1 ≠ x3.1)).map (fun x3 => [x1, x2, x3])

/-- The middle loop of `Strategy.generate_strategies_names`: iterate
`temp_indicators_names` (which starts at `indicator_1` itself), skip
indicators sharing `indicator_1`'s category, and run the innermost loop on
the suffix starting at each remaining `indicator_2`. -/
def loop2 (x1 : String × String) :
    List (String × String) → List (List (String × String))
  | [] => []
  | x2 :: rest =>
    (if x1.1 = x2.1 then [] else tripleFrom x1 x2 (x2 :: rest)) ++
      loop2 x1 rest

/-- `Strategy.generate_strategies_names`: the outer loop over
`indicators_names`, with `temp_indicators_names = indicators_names[i_1:]`
fed to the middle loop. -/
def generateStrategiesNames :
    List (String × String) → List (List (String × String))
  | [] => []
  | x1 :: rest => loop2 x1 (x1 :: rest) ++ generateStrategiesNames rest

/-- The strategy identifier built as the `strategies` dict key in
`Strategy.generate_strategies`:
`" + ".join(f"({category}) {name}" for each component)`. -/
def strategyName (t : List (String × String)) : String :=
  String.intercalate " + " (t.map (fun i => "(" ++ i.1 ++ ") " ++ i.2))

/-- The per-strategy body of `Strategy.parse_strategies_names`: split on
`"+"`, strip each piece and split it on `" "`, then take
`(piece[0][1:-1], piece[1])`.  `none` models the `IndexError` Python would
raise when a piece has fewer than two space-separated words. -/
def parseOneStrategyName (s : String) : Option (List (String × String)) :=
  let componentsV1 := (pySplit '+' s).map (fun i => pySplit ' ' (pyStrip i))
  componentsV1.mapM (fun i =>
    match i with
    | a :: b :: _ => some (pySliceInner a, b)
    | _ => none)

/-- `Strategy.parse_strategies_names` over a list of stored identifiers. -/
def parseStrategiesNames (strategiesNames : List String) :
    Option (List (List (String × String))) :=
  strategiesNames.mapM parseOneStrategyName

/-- The dict lookup `self.conditions[category][name]` of
`Strategy.generate_strategies`; `none` models the `KeyError` on an unknown
component. -/
def lookupCondition (conds : List Cond) (cat nm : String) : Option Cond :=
  conds.find? (fun c => decide (c.category = cat) && decide (c.name = nm))

/-- `Strategy.generate_strategies`: for each component triple, look up the
buy-side and sell-side predicates of every component and key the strategy by
its generated identifier. -/
def generateStrategies (conds : List Cond)
    (comps : List (List (String × String))) :
    Option (List (String × StrategyLogic)) :=
  comps.mapM (fun t => do
    let entries ← t.mapM (fun p => lookupCondition conds p.1 p.2)
    pure (strategyName t,
      { buyConditions := entries.map (fun c => c.buySide)
        sellConditions := entries.map (fun c => c.sellSide) }))

/-- `collectStrategiesDT` in filter mode keeps exactly the summaries the
discard test rejects. -/
theorem collectStrategiesDT_true_eq_filter (l : List SummaryDT) :
    collectStrategiesDT true l = l.filter (fun s => !(filterDiscards s)) := by
  induction l with
  | nil => rfl
  | cons s rest ih =>
    by_cases h : filterDiscards s = true <;>
      simp [collectStrategiesDT, List.filter, h, ih]

/-- The strategy loop appends one summary per strategy to the accumulator. -/
theorem walkStrategiesLoop_eq_append (candles : List Candle)
    (acc : List StrategySummary) (strats : List (String × StrategyLogic)) :
    walkStrategiesLoop candles acc strats =
      acc ++ strats.map (fun p =>
        getOrdersHistorySummary p.1 (walkCandles p.2 candles).ordersHistory) := by
  induction strats generalizing acc with
  | nil => simp [walkStrategiesLoop]
  | cons p rest ih => cases p; simp [walkStrategiesLoop, ih]

/-- C1 (amended): in the backtest simulator's per-trade scoring, for every
closed trade the points equal sign(profit − 1000) multiplied by 3 when
|profit − 1000| > 200 and by 1 otherwise — the source's second `points_bin`
assignment overwrites the first, so the weight-2 bucket of the claim never
survives (and sign(0) is −1, not 0). -/
theorem C1_points_single_bucket_amended (o : CalibrationOrder) (pb ps : ℚ)
    (hb : o.priceBuy = some pb) (hs : o.priceSell = some ps) :
    ∃ p : ℤ, (o.popResult).1.profit = some p ∧
      (o.popResult).1.points =
        (if p - 1000 > 0 then 1 else -1) * (if |p - 1000| > 200 then 3 else 1) := by
  refine ⟨pyRound (20 * (ps - pb) *
    (if o.instrument = Instrument.bull then 1 else -1) + 1000), ?_, ?_⟩ <;>
    simp [CalibrationOrder.popResult, hb, hs]

/-- Witness for C1: the amended statement instantiated on a concrete closed
BULL trade bought at 100 and sold at 107.5. -/
theorem C1_points_single_bucket_witness :
    ∃ p : ℤ,
      (({ instrument := Instrument.bull, onBalance := true,
          priceBuy := some 100,
          priceSell := some (215 / 2) } : CalibrationOrder).popResult).1.profit =
        some p ∧
      (({ instrument := Instrument.bull, onBalance := true,
          priceBuy := some 100,
          priceSell := some (215 / 2) } : CalibrationOrder).popResult).1.points =
        (if p - 1000 > 0 then 1 else -1) * (if |p - 1000| > 200 then 3 else 1) :=
  C1_points_single_bucket_amended _ 100 (215 / 2) rfl rfl

/-- Counterexample to C1 as stated: a closed BULL trade bought at 100 and
sold at 107.5 has profit 1150, so |profit − 1000| = 150 lies in the claim's
weight-2 bucket, yet the simulator awards 1 point, not 2. -/
theorem C1_counterexample :
    (CalibrationOrder.popResult
      { instrument := Instrument.bull, onBalance := true, priceBuy := some 100,
        priceSell := some (215 / 2) }).1.profit = some 1150 ∧
    (CalibrationOrder.popResult
      { instrument := Instrument.bull, onBalance := true, priceBuy := some 100,
        priceSell := some (215 / 2) }).1.points = 1 ∧
    (1 : ℤ) ≠ 2 := by
  refine ⟨?_, ?_, by decide⟩ <;>
    · simp only [CalibrationOrder.popResult]
      norm_num [pyRound]

/-- C5 (amended): when the current sell (bid) price is strictly below the
stop-loss price the sell order is priced at the current price (and a
re-pricing moves the active order there); otherwise it is priced at the
take-profit price — not at the better of the current bid and take-profit —
and a re-pricing moves the order to take-profit unless it already sits
there. -/
theorem C5_sell_pricing_amended (cur sl tp aop : ℚ) (enf : Bool) :
    (cur < sl →
      placeSellOrderPrice cur sl tp = cur ∧
      updateSellOrderPrice cur sl tp aop enf = some cur) ∧
    (¬ cur < sl →
      placeSellOrderPrice cur sl tp = tp ∧
      updateSellOrderPrice cur sl tp aop false =
        (if aop = tp then none else some tp)) := by
  constructor <;> intro h
  · constructor
    · simp [placeSellOrderPrice, h]
    · simp [updateSellOrderPrice, h]
  · constructor
    · simp [placeSellOrderPrice, h]
    · by_cases he : aop = tp <;> simp [updateSellOrderPrice, h, he]

/-- Witness for C5: the amended statement instantiated below the stop-loss
(current 40, stop-loss 50) and above it (current 100, stop-loss 50). -/
theorem C5_sell_pricing_witness :
    (placeSellOrderPrice 40 50 80 = 40 ∧
      updateSellOrderPrice 40 50 80 70 false = some 40) ∧
    (placeSellOrderPrice 100 50 80 = 80 ∧
      updateSellOrderPrice 100 50 80 70 false = (if (70 : ℚ) = 80 then none else some 80)) :=
  ⟨(C5_sell_pricing_amended 40 50 80 70 false).1 (by norm_num),
   (C5_sell_pricing_amended 100 50 80 70 false).2 (by norm_num)⟩

/-- Counterexample to C5 as stated: with current bid 100, stop-loss 50 and
take-profit 80 the stop-loss is not breached and the order is priced at the
take-profit 80, not at the better (higher) of the bid and take-profit,
which is 100. -/
theorem C5_counterexample :
    ¬ ((100 : ℚ) < 50) ∧
    placeSellOrderPrice 100 50 80 = 80 ∧
    max (100 : ℚ) 80 = 100 ∧
    ((80 : ℚ) ≠ 100) := by
  refine ⟨by norm_num, ?_, by norm_num, by norm_num⟩
  norm_num [placeSellOrderPrice]

/-- C6: filter mode keeps a strategy summary exactly when none of the three
discard conditions hold — points < −10, profit ≤ 100, efficiency < 50% — and
in particular a summary whose efficiency is below 50% never survives the
filter, whatever its points and profit. -/
theorem C6_filter_mode (l : List SummaryDT) (s : SummaryDT) :
    (s ∈ collectStrategiesDT true l ↔
      s ∈ l ∧ ¬(s.points < -10 ∨ s.profit ≤ 100 ∨ s.efficiency < 50)) ∧
    (s.efficiency < 50 → s ∉ collectStrategiesDT true l) := by
  have hmem : s ∈ collectStrategiesDT true l ↔
      s ∈ l ∧ ¬(s.points < -10 ∨ s.profit ≤ 100 ∨ s.efficiency < 50) := by
    rw [collectStrategiesDT_true_eq_filter, List.mem_filter]
    simp [filterDiscards, not_or, and_assoc]
  exact ⟨hmem, fun he hin => ((hmem.mp hin).2 (Or.inr (Or.inr he)))⟩

/-- Witness for C6: a summary with passing points and profit but efficiency
40% is excluded from the filtered list. -/
theorem C6_filter_mode_witness :
    ({ strategy := "s", points := 5, profit := 200, efficiency := 40 } : SummaryDT) ∉
      collectStrategiesDT true
        [{ strategy := "s", points := 5, profit := 200, efficiency := 40 }] :=
  (C6_filter_mode
    [{ strategy := "s", points := 5, profit := 200, efficiency := 40 }]
    { strategy := "s", points := 5, profit := 200, efficiency := 40 }).2
    (by norm_num)

/-- C8: the backtest walk is deterministic and independent of previously
accumulated global state: `_walk_through_strategies` first resets
`self.strategies`, and each strategy is walked with a fresh `Helper`, so the
produced summary list is the same for any two runs over the same candles and
strategies, and equals the per-strategy summaries computed independently. -/
theorem C8_walk_deterministic (prev1 prev2 : List StrategySummary)
    (candles : List Candle) (strats : List (String × StrategyLogic)) :
    walkThroughStrategies prev1 candles strats =
      walkThroughStrategies prev2 candles strats ∧
    walkThroughStrategies prev1 candles strats =
      strats.map (fun p =>
        getOrdersHistorySummary p.1 (walkCandles p.2 candles).ordersHistory) :=
  ⟨rfl, by simp [walkThroughStrategies, walkStrategiesLoop_eq_append]⟩

/-- C10: with zero completed trades the dt summary is the early-returned
constant — points 0, profit 0, efficiency "0%" — produced without reaching
the good/total division, and filter mode always discards it (its efficiency
0% is below 50%, and its profit 0 is ≤ 100). -/
theorem C10_zero_trades (strategyNameS : String) :
    getOrdersHistorySummaryDT strategyNameS [] =
      { strategy := strategyNameS, points := 0, profit := 0, efficiency := 0 } ∧
    (getOrdersHistorySummaryDT strategyNameS []).efficiency < 50 ∧
    filterDiscards (getOrdersHistorySummaryDT strategyNameS []) = true ∧
    collectStrategiesDT true [getOrdersHistorySummaryDT strategyNameS []] = [] := by
  refine ⟨rfl, by norm_num [getOrdersHistorySummaryDT], rfl, rfl⟩

/-- A category list is grouped when in any three positions in order, equal
categories at the outer two force the same category in the middle — the shape
`indicators_names` always has, since it is built category by category. -/
def Grouped (l : List (String × String)) : Prop :=
  ∀ a b c : String × String, List.Sublist [a, b, c] l → a.1 = c.1 → b.1 = a.1

/-- Decidable check of `Grouped` over the length-3 sublists. -/
def groupedCheck (l : List (String × String)) : Bool :=
  (l.sublistsLen 3).all (fun t =>
    match t with
    | [a, b, c] => !(a.1 == c.1) || (b.1 == a.1)
    | _ => true)

/-- `groupedCheck` suffices for `Grouped`. -/
theorem grouped_of_check {l : List (String × String)}
    (h : groupedCheck l = true) : Grouped l := by
  intro a b c hsub heq
  have hmem : [a, b, c] ∈ l.sublistsLen 3 :=
    List.mem_sublistsLen.mpr ⟨hsub, rfl⟩
  have := List.all_eq_true.mp h _ hmem
  simp only [Bool.or_eq_true, Bool.not_eq_true', beq_eq_false_iff_ne,
    beq_iff_eq] at this
  rcases this with h1 | h1
  · exact absurd heq h1
  · exact h1

/-- Everything the innermost generation loop emits is a triple whose last two
components come from the suffix it iterates and differ in category. -/
theorem mem_tripleFrom {x1 x2 : String × String} {t : List (String × String)}
    {s : List (String × String)} (h : s ∈ tripleFrom x1 x2 t) :
    ∃ x3 ∈ t, x2.1 ≠ x3.1 ∧ s = [x1, x2, x3] := by
  simp only [tripleFrom, List.mem_map, List.mem_filter] at h
  obtain ⟨x3, ⟨hx3t, hne⟩, rfl⟩ := h
  exact ⟨x3, hx3t, by simpa using hne, rfl⟩

/-- Everything the middle generation loop emits starts with `x1`, continues
with an `x2` of a different category drawn from a suffix of the iterated
list, and ends with an `x3` of yet another category drawn at or after
`x2`. -/
theorem mem_loop2 {x1 : String × String} {l s : List (String × String)}
    (h : s ∈ loop2 x1 l) :
    ∃ x2 rest, (x2 :: rest) <:+ l ∧ x1.1 ≠ x2.1 ∧
      ∃ x3 ∈ x2 :: rest, x2.1 ≠ x3.1 ∧ s = [x1, x2, x3] := by
  induction l with
  | nil => simp [loop2] at h
  | cons y ys ih =>
    rw [loop2] at h
    rcases List.mem_append.mp h with h1 | h1
    · by_cases hc : x1.1 = y.1
      · rw [if_pos hc] at h1
        simp at h1
      · rw [if_neg hc] at h1
        obtain ⟨x3, hx3, hne, rfl⟩ := mem_tripleFrom h1
        exact ⟨y, ys, List.suffix_refl _, hc, x3, hx3, hne, rfl⟩
    · obtain ⟨x2, rest, hsuf, hne1, hx3⟩ := ih h1
      exact ⟨x2, rest, hsuf.trans (List.suffix_cons y ys), hne1, hx3⟩

/-- Everything `generateStrategiesNames` emits comes from the middle loop run
on some suffix of the indicator list, headed by that suffix's first
element. -/
theorem mem_generateStrategiesNames {l s : List (String × String)}
    (h : s ∈ generateStrategiesNames l) :
    ∃ x1 rest, (x1 :: rest) <:+ l ∧ s ∈ loop2 x1 (x1 :: rest) := by
  induction l with
  | nil => simp [generateStrategiesNames] at h
  | cons y ys ih =>
    rw [generateStrategiesNames] at h
    rcases List.mem_append.mp h with h1 | h1
    · exact ⟨y, ys, List.suffix_refl _, h1⟩
    · obtain ⟨x1, rest, hsuf, hmem⟩ := ih h1
      exact ⟨x1, rest, hsuf.trans (List.suffix_cons y ys), hmem⟩

/-- C2: every strategy produced by full enumeration over any condition set
the library can produce (any sublist of the full, category-grouped indicator
list) consists of exactly 3 components whose categories are pairwise
distinct — in particular the first and third categories also differ. -/
theorem C2_pairwise_distinct_categories (cmfMax cmfMin : ℚ)
    (l : List (String × String))
    (hsub : List.Sublist l (indicatorsNames cmfMax cmfMin))
    {s : List (String × String)} (hs : s ∈ generateStrategiesNames l) :
    ∃ x1 x2 x3, s = [x1, x2, x3] ∧
      x1.1 ≠ x2.1 ∧ x1.1 ≠ x3.1 ∧ x2.1 ≠ x3.1 := by
  have hg : Grouped (indicatorsNames cmfMax cmfMin) := by
    have he : indicatorsNames cmfMax cmfMin = indicatorsNames 0 0 := rfl
    rw [he]
    exact grouped_of_check (by decide)
  obtain ⟨x1, rest, hsuf1, hl2⟩ := mem_generateStrategiesNames hs
  obtain ⟨x2, rest2, hsuf2, hne12, x3, hx3mem, hne23, rfl⟩ := mem_loop2 hl2
  have hx2rest : (x2 :: rest2) <:+ rest := by
    rcases List.suffix_cons_iff.mp hsuf2 with heq | htail
    · exact absurd (by rw [List.cons.injEq] at heq; rw [heq.1]) hne12
    · exact htail
  have hx3rest2 : x3 ∈ rest2 := by
    rcases List.mem_cons.mp hx3mem with heq | htail
    · exact absurd (by rw [heq]) hne23
    · exact htail
  refine ⟨x1, x2, x3, rfl, hne12, ?_, hne23⟩
  intro heq13
  have h23 : List.Sublist [x2, x3] (x2 :: rest2) :=
    (List.singleton_sublist.mpr hx3rest2).cons₂ x2
  have h123 : List.Sublist [x1, x2, x3] (x1 :: rest) :=
    (h23.trans hx2rest.sublist).cons₂ x1
  have hL : List.Sublist [x1, x2, x3] (indicatorsNames cmfMax cmfMin) :=
    (h123.trans hsuf1.sublist).trans hsub
  exact hne12 (hg x1 x2 x3 hL heq13).symm

/-- Witness for C2: the amended statement instantiated on the full indicator
list and its first generated strategy,
`(Volatility) MASSI + (Trend) 2DEMA + (Overlap) ALMA`. -/
theorem C2_pairwise_distinct_categories_witness :
    ∃ x1 x2 x3,
      ([("Volatility", "MASSI"), ("Trend", "2DEMA"), ("Overlap", "ALMA")] :
        List (String × String)) = [x1, x2, x3] ∧
      x1.1 ≠ x2.1 ∧ x1.1 ≠ x3.1 ∧ x2.1 ≠ x3.1 :=
  C2_pairwise_distinct_categories 0 0 (indicatorsNames 0 0)
    (List.Sublist.refl _) (by decide)

/-- C3: for every strategy synthesized from the current (full) condition set,
parsing the generated identifier string
`"(cat1) name1 + (cat2) name2 + (cat3) name3"` yields back exactly its
component (category, name) pairs in order. -/
theorem C3_parse_left_inverse (cmfMax cmfMin : ℚ)
    (s : List (String × String))
    (hs : s ∈ generateStrategiesNames (indicatorsNames cmfMax cmfMin)) :
    parseOneStrategyName (strategyName s) = some s := by
  have he : indicatorsNames cmfMax cmfMin = indicatorsNames 0 0 := rfl
  rw [he] at hs
  have hall : ∀ t ∈ generateStrategiesNames (indicatorsNames 0 0),
      parseOneStrategyName (strategyName t) = some t := by decide
  exact hall s hs

/-- Witness for C3: round-tripping the first generated strategy identifier. -/
theorem C3_parse_left_inverse_witness :
    parseOneStrategyName (strategyName
      [("Volatility", "MASSI"), ("Trend", "2DEMA"), ("Overlap", "ALMA")]) =
      some [("Volatility", "MASSI"), ("Trend", "2DEMA"), ("Overlap", "ALMA")] :=
  C3_parse_left_inverse 0 0 _ (by decide)

/-- No order of the instrument just sold is on balance. -/
theorem sellOrder_orders_self (st : WalkState) (tm : Tm) (row : Row)
    (inst : Instrument) :
    ((sellOrder st tm row inst).orders inst).onBalance = false := by
  unfold sellOrder
  by_cases h : (st.orders inst).onBalance = true
  · simp [h, CalibrationOrder.popResult]
  · rw [if_neg h]
    simpa using h

/-- Selling one instrument leaves the other instrument's order untouched. -/
theorem sellOrder_orders_other (st : WalkState) (tm : Tm) (row : Row)
    (inst j : Instrument) (h : j ≠ inst) :
    (sellOrder st tm row inst).orders j = st.orders j := by
  unfold sellOrder
  split
  · simp [h]
  · rfl

/-- Selling an off-balance order is a no-op. -/
theorem sellOrder_id_of_off (st : WalkState) (tm : Tm) (row : Row)
    (inst : Instrument) (h : (st.orders inst).onBalance = false) :
    sellOrder st tm row inst = st := by
  unfold sellOrder
  rw [if_neg (by simp [h])]

/-- `sell_order` appends exactly the popped result of an on-balance order. -/
theorem sellOrder_history (st : WalkState) (tm : Tm) (row : Row)
    (inst : Instrument) :
    (sellOrder st tm row inst).ordersHistory = st.ordersHistory ++
      (if (st.orders inst).onBalance then
        [((st.orders inst).sell row tm).popResult.1]
      else []) := by
  unfold sellOrder
  split <;> simp_all

/-- Both orders are off balance. -/
def allOffBalance (st : WalkState) : Bool :=
  !(st.orders Instrument.bull).onBalance &&
    !(st.orders Instrument.bear).onBalance

/-- The results the 17:15 liquidation appends: one per on-balance order, in
dict order, each closed against the closing candle. -/
def closeResults (st : WalkState) (tm : Tm) (row : Row) : List TradeResult :=
  [Instrument.bull, Instrument.bear].filterMap (fun i =>
    if (st.orders i).onBalance then
      some (((st.orders i).sell row tm).popResult.1)
    else none)

/-- On a session-close candle the step reduces to liquidating both orders. -/
theorem stepCandle_close_eq (lgc : StrategyLogic) (st : WalkState) (c : Candle)
    (hclose : isSessionClose c.tm = true) :
    stepCandle lgc st c =
      sellOrder (sellOrder st c.tm c.row Instrument.bull) c.tm c.row
        Instrument.bear := by
  have h' := hclose
  simp only [isSessionClose, Bool.and_eq_true, decide_eq_true_eq] at h'
  unfold stepCandle
  rw [if_neg (show ¬ c.tm.hour < 10 by omega), if_pos hclose]

/-- With both orders off balance, an out-of-session candle (before 10:00 or
at/after the 17:15 close) leaves the walk state entirely unchanged — in
particular the pending signal is not re-evaluated there. -/
theorem stepCandle_id_of_out (lgc : StrategyLogic) (st : WalkState)
    (c : Candle) (hoff : allOffBalance st = true)
    (hout : isOutOfSession c.tm = true) :
    stepCandle lgc st c = st := by
  simp only [allOffBalance, Bool.and_eq_true, Bool.not_eq_true'] at hoff
  by_cases h10 : c.tm.hour < 10
  · unfold stepCandle
    rw [if_pos h10]
  · have hclose : isSessionClose c.tm = true := by
      simp only [isOutOfSession, Bool.or_eq_true, decide_eq_true_eq] at hout
      rcases hout with h | h
      · exact absurd h h10
      · exact h
    rw [stepCandle_close_eq lgc st c hclose,
      sellOrder_id_of_off st c.tm c.row Instrument.bull hoff.1,
      sellOrder_id_of_off st c.tm c.row Instrument.bear hoff.2]

/-- Folding the step over out-of-session candles from an all-off-balance
state is a no-op. -/
theorem foldl_stepCandle_id (lgc : StrategyLogic) (cs : List Candle)
    (st : WalkState) (hoff : allOffBalance st = true)
    (hcs : ∀ c' ∈ cs, isOutOfSession c'.tm = true) :
    cs.foldl (stepCandle lgc) st = st := by
  induction cs with
  | nil => rfl
  | cons c rest ih =>
    rw [List.foldl_cons,
      stepCandle_id_of_out lgc st c hoff (hcs c (List.mem_cons_self c rest))]
    exact ih (fun c' h => hcs c' (List.mem_cons_of_mem c h))

/-- After processing a session-close candle both orders are off balance. -/
theorem allOffBalance_after_close (lgc : StrategyLogic) (st : WalkState)
    (c : Candle) (hclose : isSessionClose c.tm = true) :
    allOffBalance (stepCandle lgc st c) = true := by
  rw [stepCandle_close_eq lgc st c hclose]
  simp only [allOffBalance, Bool.and_eq_true, Bool.not_eq_true']
  constructor
  · rw [sellOrder_orders_other _ c.tm c.row Instrument.bear Instrument.bull
      (by decide)]
    exact sellOrder_orders_self st c.tm c.row Instrument.bull
  · exact sellOrder_orders_self _ c.tm c.row Instrument.bear

/-- Processing a session-close candle appends exactly the close results of
the orders that were on balance. -/
theorem history_after_close (lgc : StrategyLogic) (st : WalkState)
    (c : Candle) (hclose : isSessionClose c.tm = true) :
    (stepCandle lgc st c).ordersHistory =
      st.ordersHistory ++ closeResults st c.tm c.row := by
  rw [stepCandle_close_eq lgc st c hclose, sellOrder_history, sellOrder_history,
    sellOrder_orders_other st c.tm c.row Instrument.bull Instrument.bear
      (by decide)]
  by_cases hb : (st.orders Instrument.bull).onBalance = true <;>
    by_cases h2 : (st.orders Instrument.bear).onBalance = true <;>
    simp [closeResults, hb, h2]

/-- C7 (amended): every order still open at a 17:15 session-close candle is
closed against that candle and its result appended to the history that forms
the summary; immediately afterwards no order is on balance, and none becomes
on balance again while the remaining candles stay outside the trading window
(hour < 10, or hour 17 with minute ≥ 15).  On a later in-session candle —
the next trading day, or an hour ≥ 18 candle the close test misses — orders
can be on balance again, so the property does not extend to the whole
series. -/
theorem C7_forced_liquidation_amended (lgc : StrategyLogic) (st : WalkState)
    (c : Candle) (cs : List Candle) (hclose : isSessionClose c.tm = true)
    (hcs : ∀ c' ∈ cs, isOutOfSession c'.tm = true) :
    allOffBalance (stepCandle lgc st c) = true ∧
    (stepCandle lgc st c).ordersHistory =
      st.ordersHistory ++ closeResults st c.tm c.row ∧
    cs.foldl (stepCandle lgc) (stepCandle lgc st c) = stepCandle lgc st c :=
  ⟨allOffBalance_after_close lgc st c hclose,
   history_after_close lgc st c hclose,
   foldl_stepCandle_id lgc cs _ (allOffBalance_after_close lgc st c hclose) hcs⟩

/-- A minimal strategy logic for the concrete walks below: the buy side
fires exactly on candles whose close is 100, the sell side never fires. -/
def demoLogic : StrategyLogic where
  buyConditions := [fun r => decide (r.closePrice = 100)]
  sellConditions := [fun _ => false]

/-- An in-session candle (10:00 of day 0) with open and close 100. -/
def demoCandleA : Candle := { tm := ⟨0, 10, 0⟩, row := { openPrice := 100, closePrice := 100 } }

/-- The next in-session candle (10:01 of day 0) with open 200 and close 300. -/
def demoCandleB : Candle := { tm := ⟨0, 10, 1⟩, row := { openPrice := 200, closePrice := 300 } }

/-- A session-close candle (17:15 of day 0) with open and close 100. -/
def demoCandleClose : Candle := { tm := ⟨0, 17, 15⟩, row := { openPrice := 100, closePrice := 100 } }

/-- The next trading day's first candle (10:00 of day 1), close 100. -/
def demoCandleNextDay : Candle := { tm := ⟨1, 10, 0⟩, row := { openPrice := 100, closePrice := 100 } }

/-- Witness for C7: liquidation at a concrete 17:15 candle from a state
holding an open BULL order, followed by an out-of-session 17:30 candle. -/
theorem C7_forced_liquidation_witness :
    allOffBalance (stepCandle demoLogic
      { orders := fun i =>
          if i = Instrument.bull then
            { instrument := Instrument.bull, onBalance := true,
              priceBuy := some 100 }
          else { instrument := i }
        ordersHistory := []
        signal := none } demoCandleClose) = true ∧
    (stepCandle demoLogic
      { orders := fun i =>
          if i = Instrument.bull then
            { instrument := Instrument.bull, onBalance := true,
              priceBuy := some 100 }
          else { instrument := i }
        ordersHistory := []
        signal := none } demoCandleClose).ordersHistory =
      [] ++ closeResults
        { orders := fun i =>
            if i = Instrument.bull then
              { instrument := Instrument.bull, onBalance := true,
                priceBuy := some 100 }
            else { instrument := i }
          ordersHistory := []
          signal := none } demoCandleClose.tm demoCandleClose.row ∧
    [({ tm := ⟨0, 17, 30⟩, row := {} } : Candle)].foldl (stepCandle demoLogic)
        (stepCandle demoLogic
          { orders := fun i =>
              if i = Instrument.bull then
                { instrument := Instrument.bull, onBalance := true,
                  priceBuy := some 100 }
              else { instrument := i }
            ordersHistory := []
            signal := none } demoCandleClose) =
      stepCandle demoLogic
        { orders := fun i =>
            if i = Instrument.bull then
              { instrument := Instrument.bull, onBalance := true,
                priceBuy := some 100 }
            else { instrument := i }
          ordersHistory := []
          signal := none } demoCandleClose :=
  C7_forced_liquidation_amended demoLogic _ demoCandleClose
    [{ tm := ⟨0, 17, 30⟩, row := {} }] (by decide)
    (by intro c' hc'; simp only [List.mem_singleton] at hc'; subst hc'; decide)

/-- Counterexample to C7 as stated: after the walk has processed its first
17:15 session-close candle, a candle of the next trading day puts the BULL
order back on balance, so an order is on balance again later in the same
series. -/
theorem C7_counterexample :
    isSessionClose demoCandleClose.tm = true ∧
    allOffBalance (walkCandles demoLogic [demoCandleA, demoCandleClose]) = true ∧
    ((walkCandles demoLogic
        [demoCandleA, demoCandleClose, demoCandleNextDay]).orders
      Instrument.bull).onBalance = true := by
  refine ⟨by decide, ?_, ?_⟩
  · norm_num [walkCandles, List.foldl, stepCandle, getSignal, sellOrder,
      buyOrder, signalToInstrument, initWalkState, isSessionClose,
      allOffBalance, demoLogic, demoCandleA, demoCandleClose,
      demoCandleNextDay, CalibrationOrder.buy]
  · norm_num [walkCandles, List.foldl, stepCandle, getSignal, sellOrder,
      buyOrder, signalToInstrument, initWalkState, isSessionClose,
      allOffBalance, demoLogic, demoCandleA, demoCandleClose,
      demoCandleNextDay, CalibrationOrder.buy]
    simp

/-- C4 (amended): when a pending signal is executed on an in-session candle,
the entry price of the newly opened order is the midpoint (open + close)/2 of
the candle being processed — the first in-session candle after the signal
candle, not the signal candle itself — multiplied by 1.00015 for BULL and
0.99985 for BEAR. -/
theorem C4_entry_price_amended (lgc : StrategyLogic) (st : WalkState)
    (c : Candle) (s : OrderType)
    (hw : isOutOfSession c.tm = false)
    (hs : st.signal = some s)
    (hinst : (st.orders (signalToInstrument s OrderType.buy)).instrument =
      signalToInstrument s OrderType.buy)
    (hb : (st.orders (signalToInstrument s OrderType.buy)).onBalance = false) :
    ((stepCandle lgc st c).orders
      (signalToInstrument s OrderType.buy)).priceBuy =
      some (((c.row.openPrice + c.row.closePrice) / 2) *
        (if signalToInstrument s OrderType.buy = Instrument.bull then 1.00015
         else 0.99985)) := by
  have hout := hw
  simp only [isOutOfSession, Bool.or_eq_false_iff, decide_eq_false_iff_not]
    at hout
  have hdiff : signalToInstrument s OrderType.buy ≠
      signalToInstrument s OrderType.sell := by
    cases s <;> simp [signalToInstrument]
  have hOrd : (sellOrder st c.tm c.row
      (signalToInstrument s OrderType.sell)).orders
      (signalToInstrument s OrderType.buy) =
      st.orders (signalToInstrument s OrderType.buy) :=
    sellOrder_orders_other st c.tm c.row _ _ hdiff
  unfold stepCandle
  rw [if_neg hout.1, if_neg (show ¬ isSessionClose c.tm = true by
    simp [hout.2])]
  simp only [hs]
  unfold buyOrder
  rw [if_neg (by simp [hOrd, hb])]
  simp [hOrd, hinst, CalibrationOrder.buy]

/-- Witness for C4: the amended statement instantiated on an in-session
candle with open 200 and close 300 executed from a pending BUY signal. -/
theorem C4_entry_price_witness :
    ((stepCandle demoLogic
      { orders := fun i => { instrument := i }
        ordersHistory := []
        signal := some OrderType.buy } demoCandleB).orders
      (signalToInstrument OrderType.buy OrderType.buy)).priceBuy =
      some (((demoCandleB.row.openPrice + demoCandleB.row.closePrice) / 2) *
        (if signalToInstrument OrderType.buy OrderType.buy = Instrument.bull
         then 1.00015 else 0.99985)) :=
  C4_entry_price_amended demoLogic _ demoCandleB OrderType.buy (by decide)
    rfl (by decide) (by decide)

/-- Counterexample to C4 as stated: the buy predicate fires only on the
candle with close 100 (midpoint 100), yet the order opened on the following
candle (open 200, close 300) is priced from that candle's midpoint 250, so
the entry price is 250 × 1.00015, not the signal candle's 100 × 1.00015. -/
theorem C4_counterexample :
    (walkCandles demoLogic [demoCandleA]).signal = some OrderType.buy ∧
    demoLogic.buyConditions.all (fun p => p demoCandleB.row) = false ∧
    ((walkCandles demoLogic
        [demoCandleA, demoCandleB]).orders Instrument.bull).onBalance = true ∧
    ((walkCandles demoLogic
        [demoCandleA, demoCandleB]).orders Instrument.bull).priceBuy =
      some (((200 + 300) / 2) * 1.00015) ∧
    ((((200 : ℚ) + 300) / 2) * 1.00015) ≠ (((100 + 100) / 2) * 1.00015) := by
  refine ⟨?_, ?_, ?_, ?_, by norm_num⟩ <;>
    · norm_num [walkCandles, List.foldl, stepCandle, getSignal, sellOrder,
        buyOrder, signalToInstrument, initWalkState, isSessionClose, demoLogic,
        demoCandleA, demoCandleB, CalibrationOrder.buy]
      try simp
      try norm_num

/-- C9 (amended): for every condition of the library except MASSI, BBANDS,
STC and PSAR, the buy and sell predicates test opposite sides of a
threshold and are never both true on the same row (for CMF this uses that
the column maximum is at least the column minimum).  MASSI's buy and sell
predicates are identical, BBANDS's and STC's overlap on a band of rows, and
PSAR's compare against two different columns. -/
theorem C9_buy_sell_exclusive_amended (cmfMax cmfMin : ℚ)
    (hcm : cmfMin ≤ cmfMax) (c : Cond)
    (hc : c ∈ fullConditions cmfMax cmfMin)
    (hname : c.name ∉ (["MASSI", "BBANDS", "STC", "PSAR"] : List String))
    (r : Row) : ¬(c.buySide r = true ∧ c.sellSide r = true) := by
  rintro ⟨hbuy, hsell⟩
  have hmul : cmfMin * 0.2 ≤ cmfMax * 0.2 :=
    mul_le_mul_of_nonneg_right hcm (by norm_num)
  simp only [fullConditions, List.mem_cons, List.not_mem_nil, or_false] at hc
  rcases hc with rfl | rfl | rfl | rfl | rfl | rfl | rfl | rfl | rfl | rfl
    | rfl | rfl | rfl | rfl | rfl | rfl | rfl | rfl | rfl | rfl <;>
    first
      | (apply hname; decide)
      | (simp only [Cond.buySide, Cond.sellSide, decide_eq_true_eq]
           at hbuy hsell; linarith)

/-- Witness for C9: the RVI condition (buy above 50, sell below 50) never
fires both ways on a row. -/
theorem C9_buy_sell_exclusive_witness :
    ¬(({ category := "Volatility", name := "RVI",
         buySide := fun x => decide (x.rvi > 50),
         sellSide := fun x => decide (x.rvi < 50) } : Cond).buySide {} = true ∧
      ({ category := "Volatility", name := "RVI",
         buySide := fun x => decide (x.rvi > 50),
         sellSide := fun x => decide (x.rvi < 50) } : Cond).sellSide {} = true) :=
  C9_buy_sell_exclusive_amended 1 0 (by norm_num) _
    (List.mem_cons_of_mem _ (List.mem_cons_of_mem _ (List.mem_cons_of_mem _
      (List.mem_cons_self _ _)))) (by decide) {}

/-- Counterexample to C9 as stated: the MASSI condition's buy and sell
predicates are the same predicate `26 < MASSI < 27`, so on a row with
MASSI = 26.5 both fire at once. -/
theorem C9_counterexample :
    ∃ c ∈ fullConditions 1 0, c.name = "MASSI" ∧
      c.buySide { massi := 53 / 2 } = true ∧
      c.sellSide { massi := 53 / 2 } = true := by
  refine ⟨{ category := "Volatility", name := "MASSI",
            buySide := fun x => decide (26 < x.massi ∧ x.massi < 27),
            sellSide := fun x => decide (26 < x.massi ∧ x.massi < 27) },
    List.mem_cons_self _ _, rfl, ?_, ?_⟩ <;>
    · simp only [decide_eq_true_eq]
      norm_num
